import Mathlib

/-!
Verification development for the SSH connection/session multiplexing layer
(`index.js`).  The registries (`sshConnections`, `sshSessions`) are JavaScript
`Map`s; they are embedded as association lists keyed by identifier strings.
Statistics counters are JavaScript numbers holding integers; they are embedded
as `Int` (the average execution time, a float quotient, as `ℚ`).  Remote I/O
(the transport handshake, `exec` dispatch, SFTP operations) is external to the
core and enters each operation as an explicit outcome parameter describing
which terminal event settled the corresponding promise.
-/

/-- Lookup in a JavaScript-`Map`-like association list (`Map.get`). -/
def getEntry (k : String) : List (String × α) → Option α
  | [] => none
  | (k0, v0) :: rest => if k0 = k then some v0 else getEntry k rest

/-- Insert-or-replace in a JavaScript-`Map`-like association list (`Map.set`). -/
def setEntry (k : String) (v : α) : List (String × α) → List (String × α)
  | [] => [(k, v)]
  | (k0, v0) :: rest => if k0 = k then (k, v) :: rest else (k0, v0) :: setEntry k v rest

/-- Removal from a JavaScript-`Map`-like association list (`Map.delete`). -/
def eraseEntry (k : String) : List (String × α) → List (String × α)
  | [] => []
  | (k0, v0) :: rest => if k0 = k then eraseEntry k rest else (k0, v0) :: eraseEntry k rest

/-- JavaScript `String.prototype.trim`, modelled on the character list. -/
def jsTrim (s : String) : String :=
  String.mk (((s.data.dropWhile Char.isWhitespace).reverse.dropWhile Char.isWhitespace).reverse)

/-- JavaScript `String.prototype.startsWith`. -/
def jsStartsWith (s pre : String) : Bool :=
  pre.data.isPrefixOf s.data

/-- JavaScript `String.prototype.substring(n)` (drop the first `n`
characters). -/
def jsDrop (s : String) (n : Nat) : String := String.mk (s.data.drop n)

/-- Helper for `jsSplitLines`: accumulate the current line (reversed). -/
def splitLinesGo : List Char → List Char → List String
  | [], acc => [String.mk acc.reverse]
  | c :: rest, acc =>
      if c = '\n' then String.mk acc.reverse :: splitLinesGo rest []
      else splitLinesGo rest (c :: acc)

/-- JavaScript `String.prototype.split('\n')`. -/
def jsSplitLines (s : String) : List String := splitLinesGo s.data []

/-- JavaScript `a || b` for an optional string parameter: `none` and the empty
string are falsy and fall through to the default. -/
def jsOrString (v : Option String) (d : String) : String :=
  match v with
  | some s => if s = "" then d else s
  | none => d

/-- The `connectionStats` global object. -/
structure Stats where
  totalConnections : Int
  activeConnections : Int
  totalCommands : Int
  successfulCommands : Int
  failedCommands : Int
  totalExecutionTime : Int
  averageExecutionTime : ℚ
deriving DecidableEq

/-- The four action strings accepted by `updateConnectionStats`. -/
inductive StatsAction
  | connect
  | disconnect
  | command_success (executionTime : Int)
  | command_failed
deriving DecidableEq

/-- `updateConnectionStats(action, executionTime)` from `index.js`. -/
def updateConnectionStats (a : StatsAction) (s : Stats) : Stats :=
  match a with
  | .connect =>
      { s with
        totalConnections := s.totalConnections + 1
        activeConnections := s.activeConnections + 1 }
  | .disconnect =>
      { s with activeConnections := max 0 (s.activeConnections - 1) }
  | .command_success t =>
      { s with
        totalCommands := s.totalCommands + 1
        successfulCommands := s.successfulCommands + 1
        totalExecutionTime := s.totalExecutionTime + t
        averageExecutionTime :=
          ((s.totalExecutionTime + t : Int) : ℚ) / ((s.totalCommands + 1 : Int) : ℚ) }
  | .command_failed =>
      { s with
        totalCommands := s.totalCommands + 1
        failedCommands := s.failedCommands + 1 }

/-- One entry of `sshConnections`: an authenticated transport to a remote
host.  `clientClosed` embeds the `connection.client.closed` liveness flag of
the `ssh2` client handle.  Timestamps are milliseconds. -/
structure Connection where
  id : String
  name : String
  host : String
  port : Int
  username : String
  clientClosed : Bool
  connectedAt : Nat
  lastActivity : Nat
  commandCount : Nat
  workingDirectory : String
deriving DecidableEq

/-- One `commandHistory` record of a session. -/
structure HistoryEntry where
  command : String
  timestamp : Nat
  exitCode : Int
  workingDirectory : String
deriving DecidableEq

/-- One entry of `sshSessions`: a logical shell context layered on a
connection. -/
structure Session where
  id : String
  name : String
  connectionId : String
  workingDirectory : String
  commandHistory : List HistoryEntry
  startedAt : Nat
  lastActivity : Nat
  isActive : Bool
deriving DecidableEq

/-- The process-wide mutable state of `index.js`: both registries plus the
statistics object. -/
structure ServerState where
  sshConnections : List (String × Connection)
  sshSessions : List (String × Session)
  connectionStats : Stats
deriving DecidableEq

/-- The state at process start: empty registries, all counters zero. -/
def initialState : ServerState :=
  { sshConnections := []
    sshSessions := []
    connectionStats :=
      { totalConnections := 0, activeConnections := 0, totalCommands := 0
        successfulCommands := 0, failedCommands := 0, totalExecutionTime := 0
        averageExecutionTime := 0 } }

/-- `cleanupConnection(connectionId)`: if the connection is present, end the
client (errors swallowed), delete it, record a `disconnect` statistic, and
delete every session whose `connectionId` matches.  A no-op on an absent
identifier. -/
def cleanupConnection (connectionId : String) (st : ServerState) : ServerState :=
  match getEntry connectionId st.sshConnections with
  | none => st
  | some _ =>
      { st with
        sshConnections := eraseEntry connectionId st.sshConnections
        connectionStats := updateConnectionStats .disconnect st.connectionStats
        sshSessions := st.sshSessions.filter (fun p => p.2.connectionId != connectionId) }

/-- The summary returned by `disconnect_ssh`: connected duration in whole
seconds, executed-command count, and whether `client.end()` was invoked. -/
structure DisconnectSummary where
  durationSeconds : Nat
  commandCount : Nat
  transportEnded : Bool
deriving DecidableEq

/-- The `disconnect_ssh` tool handler.  `now` is the current time in
milliseconds.  On an unknown identifier it returns `none` and leaves the state
unchanged; otherwise it ends the client (best-effort), deletes the connection,
records a `disconnect` statistic and returns the summary.  Note: unlike
`cleanupConnection`, it does not touch `sshSessions`. -/
def disconnect_ssh (connectionId : String) (now : Nat) (st : ServerState) :
    Option DisconnectSummary × ServerState :=
  match getEntry connectionId st.sshConnections with
  | none => (none, st)
  | some conn =>
      (some { durationSeconds := (now - conn.connectedAt) / 1000
              commandCount := conn.commandCount
              transportEnded := true },
       { st with
         sshConnections := eraseEntry connectionId st.sshConnections
         connectionStats := updateConnectionStats .disconnect st.connectionStats })

/-- The event that first settles the `connect_ssh` handshake promise race:
the `ready` event (success), the `error` / `timeout` / `end` / `close` client
events, the 5-second `setTimeout` timer, or a synchronous throw from
`client.connect`. -/
inductive HandshakeOutcome
  | ready
  | errorEvent
  | timerTimeout
  | timeoutEvent
  | endEvent
  | closeEvent
  | connectThrow
deriving DecidableEq

/-- Caller-visible outcome of `connect_ssh`: the new identifier on success,
whether the code reached the transport handshake, and whether the settling
path invoked `client.end()` on the handle. -/
structure ConnectResult where
  newConnectionId : Option String
  attemptedHandshake : Bool
  clientEnded : Bool
deriving DecidableEq

/-- The duplicate-name guard at the top of `connect_ssh`: runs only when a
(non-empty) `connectionName` was supplied, and scans all live connections. -/
def nameConflict (connectionName : Option String) (st : ServerState) : Bool :=
  match connectionName with
  | some n => (n != "") && st.sshConnections.any (fun p => p.2.name == n)
  | none => false

/-- The connection record built by `connect_ssh` before the handshake. -/
def freshConnection (host : String) (port : Int) (username : String)
    (connectionName : Option String) (newId : String) (now : Nat) : Connection :=
  { id := newId
    name := jsOrString connectionName ("conn_" ++ newId)
    host := host
    port := port
    username := username
    clientClosed := false
    connectedAt := now
    lastActivity := now
    commandCount := 0
    workingDirectory := "/root" }

/-- The `connect_ssh` tool handler.  `keyValid` abstracts the pre-handshake
credential checks (key content present, OpenSSH PEM markers); these run after
the name-conflict guard and before any network activity.  In the source, of
the five handlers racing to settle the handshake promise, only the internal
5-second timer callback calls `client.end()`; the `error`, `timeout`, `end`
and `close` event handlers and the synchronous-throw catch merely reject. -/
def connect_ssh (host : String) (port : Int) (username : String)
    (keyValid : Bool) (connectionName : Option String)
    (outcome : HandshakeOutcome) (newId : String) (now : Nat)
    (st : ServerState) : ConnectResult × ServerState :=
  if nameConflict connectionName st then
    ({ newConnectionId := none, attemptedHandshake := false, clientEnded := false }, st)
  else if !keyValid then
    ({ newConnectionId := none, attemptedHandshake := false, clientEnded := false }, st)
  else
    match outcome with
    | .ready =>
        ({ newConnectionId := some newId, attemptedHandshake := true, clientEnded := false },
         { st with
           sshConnections :=
             setEntry newId (freshConnection host port username connectionName newId now)
               st.sshConnections
           connectionStats := updateConnectionStats .connect st.connectionStats })
    | .timerTimeout =>
        ({ newConnectionId := none, attemptedHandshake := true, clientEnded := true }, st)
    | _ =>
        ({ newConnectionId := none, attemptedHandshake := true, clientEnded := false }, st)

/-- The terminal event of one `client.exec` dispatch: the stream `close`
event carrying the remote exit code (with accumulated raw stdout/stderr), the
per-operation `setTimeout` timer, a stream `error` event, or an error passed
to the `exec` callback itself. -/
inductive ExecOutcome
  | completed (code : Int) (stdoutRaw stderrRaw : String)
  | timedOut
  | streamError
  | dispatchError
deriving DecidableEq

/-- Caller-visible outcome of `execute_command`. -/
inductive CommandResult
  | notFound
  | connectionClosed
  | success (code : Int) (stdout stderr : String)
  | failed
deriving DecidableEq

/-- The command rewriting in `execute_command`: an explicit `changeDirectory`
flag prefixes the tracked directory unless it is the default `/root`. -/
def buildExecuteCommand (changeDirectory : Bool) (workingDirectory command : String) : String :=
  if changeDirectory = true ∧ workingDirectory ≠ "/root" then
    "cd " ++ workingDirectory ++ " && " ++ command
  else
    command

/-- The `execute_command` tool handler.  A completed dispatch (any remote exit
code) bumps the connection's command counter and last-activity timestamp and
records `command_success`; a transport-level failure records
`command_failed`. -/
def execute_command (connectionId : String) (outcome : ExecOutcome)
    (executionTime : Int) (now : Nat) (st : ServerState) :
    CommandResult × ServerState :=
  match getEntry connectionId st.sshConnections with
  | none => (.notFound, st)
  | some conn =>
      if conn.clientClosed then
        (.connectionClosed, cleanupConnection connectionId st)
      else
        match outcome with
        | .completed code stdoutRaw stderrRaw =>
            (.success code (jsTrim stdoutRaw) (jsTrim stderrRaw),
             { st with
               sshConnections :=
                 setEntry connectionId
                   { conn with commandCount := conn.commandCount + 1, lastActivity := now }
                   st.sshConnections
               connectionStats :=
                 updateConnectionStats (.command_success executionTime) st.connectionStats })
        | _ =>
            (.failed,
             { st with
               connectionStats := updateConnectionStats .command_failed st.connectionStats })

/-- The `cd`-interception rewriting in `execute_in_session`: given the
session's tracked directory and the raw command, produce the dispatched
command together with the `shouldUpdateWorkingDirectory` mark. -/
def resolveSessionCommand (workingDirectory command : String) : String × Bool :=
  if jsStartsWith (jsTrim command) "cd " = true then
    if jsStartsWith (jsTrim (jsDrop (jsTrim command) 3)) "/" = true then
      ("cd " ++ jsTrim (jsDrop (jsTrim command) 3) ++ " && pwd", true)
    else if jsTrim (jsDrop (jsTrim command) 3) = "-" ∨ jsTrim (jsDrop (jsTrim command) 3) = "~" then
      ("cd " ++ jsTrim (jsDrop (jsTrim command) 3) ++ " && pwd", true)
    else
      ("cd " ++ workingDirectory ++ "/" ++ jsTrim (jsDrop (jsTrim command) 3) ++ " && pwd", true)
  else if workingDirectory ≠ "/root" then
    ("cd " ++ workingDirectory ++ " && " ++ command, false)
  else
    (command, false)

/-- The tracked-directory reducer of `execute_in_session`, applied to the
(already trimmed) stdout of a completed dispatch: on a marked
directory-changing command with exit code 0, the last line of the output
replaces the tracked directory provided it is non-empty and absolute. -/
def applyDirectoryUpdate (workingDirectory : String) (shouldUpdate : Bool)
    (code : Int) (stdoutTrimmed : String) : String :=
  if shouldUpdate = true ∧ code = 0 then
    if jsTrim ((jsSplitLines stdoutTrimmed).getLastD "") ≠ "" ∧
       jsStartsWith (jsTrim ((jsSplitLines stdoutTrimmed).getLastD "")) "/" = true then
      jsTrim ((jsSplitLines stdoutTrimmed).getLastD "")
    else workingDirectory
  else workingDirectory

/-- Caller-visible outcome of `execute_in_session`. -/
inductive SessionCommandResult
  | sessionNotFound
  | sessionClosed
  | connectionClosed
  | success (code : Int) (stdout stderr : String)
  | failed
deriving DecidableEq

/-- The `execute_in_session` tool handler.  On a completed dispatch it
appends a history entry (recording the directory at time of execution),
updates the session's last-activity timestamp, applies the tracked-directory
reducer, bumps the owning connection's command counter (but not its
last-activity timestamp) and records `command_success`; on a transport-level
failure it records `command_failed` only.  A dead connection triggers
`cleanupConnection` plus removal of this session. -/
def execute_in_session (sessionId command : String) (outcome : ExecOutcome)
    (executionTime : Int) (now : Nat) (st : ServerState) :
    SessionCommandResult × ServerState :=
  match getEntry sessionId st.sshSessions with
  | none => (.sessionNotFound, st)
  | some session =>
      if !session.isActive then
        (.sessionClosed, st)
      else
        match getEntry session.connectionId st.sshConnections with
        | none =>
            (.connectionClosed,
             { cleanupConnection session.connectionId st with
               sshSessions :=
                 eraseEntry sessionId (cleanupConnection session.connectionId st).sshSessions })
        | some conn =>
            if conn.clientClosed then
              (.connectionClosed,
               { cleanupConnection session.connectionId st with
                 sshSessions :=
                   eraseEntry sessionId (cleanupConnection session.connectionId st).sshSessions })
            else
              match outcome with
              | .completed code stdoutRaw stderrRaw =>
                  (.success code (jsTrim stdoutRaw) (jsTrim stderrRaw),
                   { st with
                     sshSessions :=
                       setEntry sessionId
                         { session with
                           lastActivity := now
                           commandHistory := session.commandHistory ++
                             [{ command := jsTrim command
                                timestamp := now
                                exitCode := code
                                workingDirectory := session.workingDirectory }]
                           workingDirectory :=
                             applyDirectoryUpdate session.workingDirectory
                               (resolveSessionCommand session.workingDirectory command).2
                               code (jsTrim stdoutRaw) }
                         st.sshSessions
                     sshConnections :=
                       setEntry session.connectionId
                         { conn with commandCount := conn.commandCount + 1 }
                         st.sshConnections
                     connectionStats :=
                       updateConnectionStats (.command_success executionTime) st.connectionStats })
              | _ =>
                  (.failed,
                   { st with
                     connectionStats := updateConnectionStats .command_failed st.connectionStats })

/-- Caller-visible outcome of `interactive_ssh`. -/
inductive StartSessionResult
  | notFound
  | connectionClosed
  | started (sessionId : String) (workingDirectory : String)
deriving DecidableEq

/-- The `interactive_ssh` tool handler.  `verifyOutcome` is the result of the
`cd initialDirectory && pwd` verification dispatch (`none` for a rejected
promise, i.e. exec error or timeout; `some (code, stdoutRaw)` for stream
close).  The session is inserted before verification runs; verification runs
only for a supplied, non-default initial directory; its failure silently
resets the tracked directory to `/root`. -/
def interactive_ssh (connectionId : String)
    (sessionName initialDirectory : Option String)
    (verifyOutcome : Option (Int × String))
    (newSessionId : String) (now : Nat) (st : ServerState) :
    StartSessionResult × ServerState :=
  match getEntry connectionId st.sshConnections with
  | none => (.notFound, st)
  | some conn =>
      if conn.clientClosed then
        (.connectionClosed, cleanupConnection connectionId st)
      else
        let baseDir := jsOrString initialDirectory
          (if conn.workingDirectory = "" then "/root" else conn.workingDirectory)
        let finalDir :=
          match initialDirectory with
          | some d =>
              if d ≠ "" ∧ d ≠ "/root" then
                match verifyOutcome with
                | some (code, stdoutRaw) =>
                    if code = 0 then jsTrim stdoutRaw else "/root"
                | none => "/root"
              else baseDir
          | none => baseDir
        (.started newSessionId finalDir,
         { st with
           sshSessions :=
             setEntry newSessionId
               { id := newSessionId
                 name := jsOrString sessionName ("session_" ++ newSessionId)
                 connectionId := connectionId
                 workingDirectory := finalDir
                 commandHistory := []
                 startedAt := now
                 lastActivity := now
                 isActive := true }
               st.sshSessions })

/-- Caller-visible outcome of `change_directory`. -/
inductive ChangeDirResult
  | notFound
  | connectionClosed
  | changed (newDirectory : String)
  | failed
deriving DecidableEq

/-- The `change_directory` tool handler.  `outcome` is the result of the
`cd directory && pwd` dispatch (`none` for a rejected promise).  On exit code
0 the connection's tracked directory becomes the trimmed stdout and its
last-activity timestamp is updated; any failure records `command_failed`. -/
def change_directory (connectionId directory : String)
    (outcome : Option (Int × String × String))
    (executionTime : Int) (now : Nat) (st : ServerState) :
    ChangeDirResult × ServerState :=
  match getEntry connectionId st.sshConnections with
  | none => (.notFound, st)
  | some conn =>
      if conn.clientClosed then
        (.connectionClosed, cleanupConnection connectionId st)
      else
        match outcome with
        | some (code, stdoutRaw, _) =>
            if code = 0 then
              (.changed (jsTrim stdoutRaw),
               { st with
                 sshConnections :=
                   setEntry connectionId
                     { conn with workingDirectory := jsTrim stdoutRaw, lastActivity := now }
                     st.sshConnections
                 connectionStats :=
                   updateConnectionStats (.command_success executionTime) st.connectionStats })
            else
              (.failed,
               { st with
                 connectionStats := updateConnectionStats .command_failed st.connectionStats })
        | none =>
            (.failed,
             { st with
               connectionStats := updateConnectionStats .command_failed st.connectionStats })

/-- Caller-visible outcome of `file_operation`. -/
inductive FileOpResult
  | notFound
  | connectionClosed
  | success (detail : String)
  | failed
deriving DecidableEq

/-- The `file_operation` tool handler, covering the six SFTP sub-operations
(`upload`, `download`, `list`, `delete`, `mkdir`, `rmdir`), each of which
either resolves with a detail string (`some detail`) or rejects (`none`).
On success only the connection's last-activity timestamp is touched (its
command counter is not incremented), and `command_success` is recorded. -/
def file_operation (connectionId : String) (outcome : Option String)
    (executionTime : Int) (now : Nat) (st : ServerState) :
    FileOpResult × ServerState :=
  match getEntry connectionId st.sshConnections with
  | none => (.notFound, st)
  | some conn =>
      if conn.clientClosed then
        (.connectionClosed, cleanupConnection connectionId st)
      else
        match outcome with
        | some detail =>
            (.success detail,
             { st with
               sshConnections :=
                 setEntry connectionId { conn with lastActivity := now } st.sshConnections
               connectionStats :=
                 updateConnectionStats (.command_success executionTime) st.connectionStats })
        | none =>
            (.failed,
             { st with
               connectionStats := updateConnectionStats .command_failed st.connectionStats })

/-- The summary returned by `close_session`: session duration in whole
seconds and the length of the command history. -/
structure SessionSummary where
  durationSeconds : Nat
  commandCount : Nat
deriving DecidableEq

/-- The `close_session` tool handler.  It consults only `sshSessions`: the
referenced connection is never looked up, and neither `sshConnections` nor
`connectionStats` is touched. -/
def close_session (sessionId : String) (now : Nat) (st : ServerState) :
    Option SessionSummary × ServerState :=
  match getEntry sessionId st.sshSessions with
  | none => (none, st)
  | some session =>
      (some { durationSeconds := (now - session.startedAt) / 1000
              commandCount := session.commandHistory.length },
       { st with sshSessions := eraseEntry sessionId st.sshSessions })

/-- A connection-lifecycle operation: connect attempt, explicit disconnect,
or internal cleanup (possibly redundant). -/
inductive AdminOp
  | connectOp (host : String) (port : Int) (username : String) (keyValid : Bool)
      (connectionName : Option String) (outcome : HandshakeOutcome)
      (newId : String) (now : Nat)
  | disconnectOp (connectionId : String) (now : Nat)
  | cleanupOp (connectionId : String)

/-- Apply one lifecycle operation to the server state. -/
def applyOp (st : ServerState) : AdminOp → ServerState
  | .connectOp h p u kv n o i t => (connect_ssh h p u kv n o i t st).2
  | .disconnectOp id t => (disconnect_ssh id t st).2
  | .cleanupOp id => cleanupConnection id st

/-- Run a sequence of lifecycle operations from a starting state. -/
def runOps (st : ServerState) (ops : List AdminOp) : ServerState :=
  ops.foldl applyOp st

/-- Ghost session for the `close_session` claim: its owning connection
identifier is absent from the connection registry. -/
def c10Session : Session :=
  { id := "s1", name := "orphan", connectionId := "ghost", workingDirectory := "/root"
    commandHistory := [], startedAt := 0, lastActivity := 0, isActive := true }

/-- A state holding only the orphaned session: its connection is gone. -/
def c10State : ServerState :=
  { sshConnections := [], sshSessions := [("s1", c10Session)]
    connectionStats := initialState.connectionStats }

/-- A live connection used by several concrete instantiations. -/
def c1Conn : Connection :=
  { id := "c1", name := "alpha", host := "203.0.113.7", port := 22, username := "root"
    clientClosed := false, connectedAt := 1000, lastActivity := 1000
    commandCount := 2, workingDirectory := "/root" }

/-- A session owned by connection `c1`. -/
def c1Session : Session :=
  { id := "s1", name := "sess1", connectionId := "c1", workingDirectory := "/var"
    commandHistory := [], startedAt := 1500, lastActivity := 1500, isActive := true }

/-- A state holding the live connection `c1` and its session `s1`. -/
def c1State : ServerState :=
  { sshConnections := [("c1", c1Conn)]
    sshSessions := [("s1", c1Session)]
    connectionStats :=
      { totalConnections := 1, activeConnections := 1, totalCommands := 0
        successfulCommands := 0, failedCommands := 0, totalExecutionTime := 0
        averageExecutionTime := 0 } }

/-- A live connection for the directory-resolution scenario. -/
def demoConn : Connection :=
  { id := "cD", name := "demo", host := "203.0.113.9", port := 22, username := "root"
    clientClosed := false, connectedAt := 0, lastActivity := 0
    commandCount := 0, workingDirectory := "/root" }

/-- A session starting at the default home directory. -/
def demoSession : Session :=
  { id := "sD", name := "dsess", connectionId := "cD", workingDirectory := "/root"
    commandHistory := [], startedAt := 0, lastActivity := 0, isActive := true }

/-- The scenario's starting state. -/
def demoState : ServerState :=
  { sshConnections := [("cD", demoConn)]
    sshSessions := [("sD", demoSession)]
    connectionStats := initialState.connectionStats }

/-- After `cd /a` succeeds with `pwd` echoing `/a`. -/
def demoState1 : ServerState :=
  (execute_in_session "sD" "cd /a" (.completed 0 "/a" "") 5 100 demoState).2

/-- After a further relative `cd b` succeeds with `pwd` echoing `/a/b`. -/
def demoState2 : ServerState :=
  (execute_in_session "sD" "cd b" (.completed 0 "/a/b" "") 5 200 demoState1).2

/-- After a failing `cd x` (non-zero exit status) from `/a`. -/
def demoStateFail : ServerState :=
  (execute_in_session "sD" "cd x" (.completed 1 "" "no such dir") 5 300 demoState1).2

theorem getEntry_setEntry_self (k : String) (v : α) (l : List (String × α)) :
    getEntry k (setEntry k v l) = some v := by
  induction l with
  | nil => simp [getEntry, setEntry]
  | cons p rest ih =>
    obtain ⟨k0, v0⟩ := p
    by_cases h : k0 = k
    · simp [getEntry, setEntry, h]
    · simp [getEntry, setEntry, h, ih]

theorem getEntry_setEntry_ne (k k' : String) (v : α) (l : List (String × α))
    (h : k' ≠ k) : getEntry k' (setEntry k v l) = getEntry k' l := by
  have hkk' : ¬ k = k' := fun e => h e.symm
  induction l with
  | nil => simp [getEntry, setEntry, hkk']
  | cons p rest ih =>
    obtain ⟨k0, v0⟩ := p
    by_cases hp : k0 = k
    · subst hp
      simp [getEntry, setEntry, hkk']
    · simp [getEntry, setEntry, hp, ih]

theorem getEntry_eraseEntry_self (k : String) (l : List (String × α)) :
    getEntry k (eraseEntry k l) = none := by
  induction l with
  | nil => simp [getEntry, eraseEntry]
  | cons p rest ih =>
    obtain ⟨k0, v0⟩ := p
    by_cases h : k0 = k
    · simpa [eraseEntry, h] using ih
    · simpa [eraseEntry, getEntry, h] using ih

theorem getEntry_eraseEntry_ne (k k' : String) (l : List (String × α))
    (h : k' ≠ k) : getEntry k' (eraseEntry k l) = getEntry k' l := by
  have hkk' : ¬ k = k' := fun e => h e.symm
  induction l with
  | nil => simp [getEntry, eraseEntry]
  | cons p rest ih =>
    obtain ⟨k0, v0⟩ := p
    by_cases hp : k0 = k
    · subst hp
      simpa [eraseEntry, getEntry, hkk'] using ih
    · simp [eraseEntry, getEntry, hp, ih]

theorem updateConnectionStats_active_nonneg (a : StatsAction) (s : Stats)
    (h : 0 ≤ s.activeConnections) :
    0 ≤ (updateConnectionStats a s).activeConnections := by
  cases a with
  | connect =>
      simp only [updateConnectionStats]
      linarith
  | disconnect =>
      simp only [updateConnectionStats]
      exact le_max_left 0 _
  | command_success t => simpa only [updateConnectionStats] using h
  | command_failed => simpa only [updateConnectionStats] using h

theorem cleanupConnection_active_nonneg (connectionId : String) (st : ServerState)
    (h : 0 ≤ st.connectionStats.activeConnections) :
    0 ≤ (cleanupConnection connectionId st).connectionStats.activeConnections := by
  unfold cleanupConnection
  cases getEntry connectionId st.sshConnections with
  | none => exact h
  | some conn => exact updateConnectionStats_active_nonneg _ _ h

theorem applyOp_active_nonneg (st : ServerState) (op : AdminOp)
    (h : 0 ≤ st.connectionStats.activeConnections) :
    0 ≤ (applyOp st op).connectionStats.activeConnections := by
  cases op with
  | connectOp hh p u kv n o i t =>
      simp only [applyOp]
      unfold connect_ssh
      by_cases hc : nameConflict n st = true
      · simp only [hc, if_true]
        exact h
      · simp only [hc, if_false]
        by_cases hk : kv = true
        · simp only [hk]
          cases o <;>
            first
              | exact updateConnectionStats_active_nonneg _ _ h
              | exact h
        · simp only [Bool.not_eq_true] at hk
          simp only [hk]
          exact h
  | disconnectOp id t =>
      simp only [applyOp]
      unfold disconnect_ssh
      cases getEntry id st.sshConnections with
      | none => exact h
      | some conn => exact updateConnectionStats_active_nonneg _ _ h
  | cleanupOp id => exact cleanupConnection_active_nonneg id st h

theorem runOps_active_nonneg (ops : List AdminOp) (st : ServerState)
    (h : 0 ≤ st.connectionStats.activeConnections) :
    0 ≤ (runOps st ops).connectionStats.activeConnections := by
  induction ops generalizing st with
  | nil => simpa [runOps] using h
  | cons op rest ih =>
      simpa [runOps, List.foldl] using ih (applyOp st op) (applyOp_active_nonneg st op h)

/-- Claim C9: across every sequence of connect, disconnect, and cleanup
operations (including redundant cleanups of already-removed identifiers),
`activeConnections` stays at or above zero — each decrement is clamped at
zero by `updateConnectionStats`. -/
theorem C9_activeConnections_never_negative (ops : List AdminOp) :
    0 ≤ (runOps initialState ops).connectionStats.activeConnections :=
  runOps_active_nonneg ops initialState (by norm_num [initialState])

/-- Claim C10: for every session present in the session registry,
`close_session` removes the session and returns its summary (duration in
seconds and command-history count) without consulting the referenced
connection — no hypothesis about the connection registry is needed — and it
leaves both the connection registry and the statistics untouched. -/
theorem C10_close_session_independent (sessionId : String) (session : Session)
    (now : Nat) (st : ServerState)
    (h : getEntry sessionId st.sshSessions = some session) :
    (close_session sessionId now st).1 =
      some { durationSeconds := (now - session.startedAt) / 1000
             commandCount := session.commandHistory.length } ∧
    getEntry sessionId (close_session sessionId now st).2.sshSessions = none ∧
    (close_session sessionId now st).2.sshConnections = st.sshConnections ∧
    (close_session sessionId now st).2.connectionStats = st.connectionStats := by
  unfold close_session
  rw [h]
  exact ⟨rfl, getEntry_eraseEntry_self _ _, rfl, rfl⟩

/-- Witness for C10 at a concrete state whose session references a connection
that has already been removed from the connection registry. -/
theorem C10_close_session_independent_witness :
    getEntry "s1" c10State.sshSessions = some c10Session ∧
    ((close_session "s1" 7000 c10State).1 =
        some { durationSeconds := (7000 - c10Session.startedAt) / 1000
               commandCount := c10Session.commandHistory.length } ∧
      getEntry "s1" (close_session "s1" 7000 c10State).2.sshSessions = none ∧
      (close_session "s1" 7000 c10State).2.sshConnections = c10State.sshConnections ∧
      (close_session "s1" 7000 c10State).2.connectionStats = c10State.connectionStats) :=
  ⟨by decide, C10_close_session_independent "s1" c10Session 7000 c10State (by decide)⟩

/-- Claim C1 counterexample: disconnecting the live connection `c1` succeeds
and removes the connection, yet the session `s1` whose owning connection
identifier is `c1` is still present afterwards — `disconnect_ssh` does not
cascade removal of sessions (only the internal `cleanupConnection` does). -/
theorem C1_counterexample_session_survives :
    (disconnect_ssh "c1" 5000 c1State).1 =
      some { durationSeconds := 4, commandCount := 2, transportEnded := true } ∧
    getEntry "c1" (disconnect_ssh "c1" 5000 c1State).2.sshConnections = none ∧
    getEntry "s1" (disconnect_ssh "c1" 5000 c1State).2.sshSessions = some c1Session := by
  decide

/-- Claim C1 (amended): for every live connection identifier, `disconnect_ssh`
force-closes the transport (best-effort), removes the connection so a
subsequent lookup fails, decrements `activeConnections` clamped at zero, and
returns a summary with the connected duration and command count — but it
leaves the session registry untouched: sessions bound to the connection are
NOT removed (they are cleaned up only lazily, by `cleanupConnection`, when
next used). -/
theorem C1_disconnect_behaviour (connectionId : String) (conn : Connection)
    (now : Nat) (st : ServerState)
    (h : getEntry connectionId st.sshConnections = some conn) :
    (disconnect_ssh connectionId now st).1 =
      some { durationSeconds := (now - conn.connectedAt) / 1000
             commandCount := conn.commandCount
             transportEnded := true } ∧
    getEntry connectionId (disconnect_ssh connectionId now st).2.sshConnections = none ∧
    (disconnect_ssh connectionId now st).2.connectionStats.activeConnections =
      max 0 (st.connectionStats.activeConnections - 1) ∧
    (disconnect_ssh connectionId now st).2.sshSessions = st.sshSessions := by
  unfold disconnect_ssh
  rw [h]
  exact ⟨rfl, getEntry_eraseEntry_self _ _, rfl, rfl⟩

/-- Witness for the amended C1 at the concrete state `c1State`. -/
theorem C1_disconnect_behaviour_witness :
    getEntry "c1" c1State.sshConnections = some c1Conn ∧
    ((disconnect_ssh "c1" 5000 c1State).1 =
        some { durationSeconds := (5000 - c1Conn.connectedAt) / 1000
               commandCount := c1Conn.commandCount
               transportEnded := true } ∧
      getEntry "c1" (disconnect_ssh "c1" 5000 c1State).2.sshConnections = none ∧
      (disconnect_ssh "c1" 5000 c1State).2.connectionStats.activeConnections =
        max 0 (c1State.connectionStats.activeConnections - 1) ∧
      (disconnect_ssh "c1" 5000 c1State).2.sshSessions = c1State.sshSessions) :=
  ⟨by decide, C1_disconnect_behaviour "c1" c1Conn 5000 c1State (by decide)⟩

/-- Claim C2 counterexample: a handshake attempt settled by the client
`error` event fails — no connection is inserted and statistics are
unchanged — yet `client.end()` is NOT invoked on the handle: only the
internal 5-second timer callback force-closes.  The claim that every failure
force-closes the transport is false of the code. -/
theorem C2_counterexample_error_no_close :
    (connect_ssh "203.0.113.7" 22 "root" true none .errorEvent "id1" 0 initialState).1 =
      { newConnectionId := none, attemptedHandshake := true, clientEnded := false } ∧
    (connect_ssh "203.0.113.7" 22 "root" true none .errorEvent "id1" 0 initialState).2 =
      initialState := by
  decide

/-- Claim C2 (amended): for every connect attempt passing the pre-handshake
guards, a `ready` outcome inserts the connection and increments both
`totalConnections` and `activeConnections`; any other outcome leaves the
state entirely unchanged (nothing inserted, no statistics update) and
force-closes the transport handle only when the failure is the internal
handshake-timer timeout — the `error`/`timeout`/`end`/`close` events and a
synchronous dispatch failure do not explicitly close the handle. -/
theorem C2_connect_behaviour (host username newId : String) (port : Int)
    (connectionName : Option String) (outcome : HandshakeOutcome) (now : Nat)
    (st : ServerState)
    (hName : nameConflict connectionName st = false) :
    (outcome = .ready →
      getEntry newId
          (connect_ssh host port username true connectionName outcome newId now st).2.sshConnections =
        some (freshConnection host port username connectionName newId now) ∧
      (connect_ssh host port username true connectionName outcome newId now st).2.connectionStats.totalConnections =
        st.connectionStats.totalConnections + 1 ∧
      (connect_ssh host port username true connectionName outcome newId now st).2.connectionStats.activeConnections =
        st.connectionStats.activeConnections + 1) ∧
    (outcome ≠ .ready →
      (connect_ssh host port username true connectionName outcome newId now st).2 = st ∧
      (connect_ssh host port username true connectionName outcome newId now st).1.newConnectionId =
        none ∧
      ((connect_ssh host port username true connectionName outcome newId now st).1.clientEnded =
          true ↔ outcome = .timerTimeout)) := by
  constructor
  · rintro rfl
    unfold connect_ssh
    simp [hName, getEntry_setEntry_self, updateConnectionStats]
  · intro hne
    unfold connect_ssh
    cases outcome with
    | ready => exact absurd rfl hne
    | errorEvent => simp [hName]
    | timerTimeout => simp [hName]
    | timeoutEvent => simp [hName]
    | endEvent => simp [hName]
    | closeEvent => simp [hName]
    | connectThrow => simp [hName]

/-- Witness for the amended C2: a successful handshake from the initial
state inserts the fresh connection and bumps both counters. -/
theorem C2_connect_behaviour_witness :
    nameConflict none initialState = false ∧
    ((HandshakeOutcome.ready = .ready →
      getEntry "id1"
          (connect_ssh "203.0.113.7" 22 "root" true none .ready "id1" 3 initialState).2.sshConnections =
        some (freshConnection "203.0.113.7" 22 "root" none "id1" 3) ∧
      (connect_ssh "203.0.113.7" 22 "root" true none .ready "id1" 3 initialState).2.connectionStats.totalConnections =
        initialState.connectionStats.totalConnections + 1 ∧
      (connect_ssh "203.0.113.7" 22 "root" true none .ready "id1" 3 initialState).2.connectionStats.activeConnections =
        initialState.connectionStats.activeConnections + 1) ∧
    (HandshakeOutcome.ready ≠ .ready →
      (connect_ssh "203.0.113.7" 22 "root" true none .ready "id1" 3 initialState).2 =
        initialState ∧
      (connect_ssh "203.0.113.7" 22 "root" true none .ready "id1" 3 initialState).1.newConnectionId =
        none ∧
      ((connect_ssh "203.0.113.7" 22 "root" true none .ready "id1" 3 initialState).1.clientEnded =
          true ↔ HandshakeOutcome.ready = .timerTimeout))) :=
  ⟨rfl, C2_connect_behaviour "203.0.113.7" "root" "id1" 22 none .ready 3 initialState rfl⟩

/-- Claim C3: for every live connection, a dispatch that completes with a
remote exit status (zero or non-zero) records `command_success` — bumping
`totalCommands`, `successfulCommands` and the accumulated execution time and
refreshing the running average — and updates the owning connection's command
counter and last-activity timestamp; only the transport-level failures
(timeout, stream error, dispatch error) record `command_failed`, which bumps
`totalCommands` and `failedCommands` and leaves the connection untouched. -/
theorem C3_command_statistics (connectionId : String) (conn : Connection)
    (t : Int) (now : Nat) (st : ServerState)
    (h : getEntry connectionId st.sshConnections = some conn)
    (hLive : conn.clientClosed = false) :
    (∀ code stdoutRaw stderrRaw,
      (execute_command connectionId (.completed code stdoutRaw stderrRaw) t now st).2.connectionStats =
        { st.connectionStats with
          totalCommands := st.connectionStats.totalCommands + 1
          successfulCommands := st.connectionStats.successfulCommands + 1
          totalExecutionTime := st.connectionStats.totalExecutionTime + t
          averageExecutionTime :=
            ((st.connectionStats.totalExecutionTime + t : Int) : ℚ) /
              ((st.connectionStats.totalCommands + 1 : Int) : ℚ) } ∧
      getEntry connectionId
          (execute_command connectionId (.completed code stdoutRaw stderrRaw) t now st).2.sshConnections =
        some { conn with commandCount := conn.commandCount + 1, lastActivity := now }) ∧
    (∀ outcome : ExecOutcome,
      outcome = .timedOut ∨ outcome = .streamError ∨ outcome = .dispatchError →
      (execute_command connectionId outcome t now st).2.connectionStats =
        { st.connectionStats with
          totalCommands := st.connectionStats.totalCommands + 1
          failedCommands := st.connectionStats.failedCommands + 1 } ∧
      (execute_command connectionId outcome t now st).2.sshConnections = st.sshConnections) := by
  constructor
  · intro code stdoutRaw stderrRaw
    unfold execute_command
    rw [h]
    simp [hLive, updateConnectionStats, getEntry_setEntry_self]
  · rintro outcome (rfl | rfl | rfl) <;>
      · unfold execute_command
        rw [h]
        simp [hLive, updateConnectionStats]

/-- Witness for C3 at the concrete live connection `c1` with a non-zero
remote exit code and with a timeout. -/
theorem C3_command_statistics_witness :
    getEntry "c1" c1State.sshConnections = some c1Conn ∧
    c1Conn.clientClosed = false ∧
    ((∀ code stdoutRaw stderrRaw,
      (execute_command "c1" (.completed code stdoutRaw stderrRaw) 10 2000 c1State).2.connectionStats =
        { c1State.connectionStats with
          totalCommands := c1State.connectionStats.totalCommands + 1
          successfulCommands := c1State.connectionStats.successfulCommands + 1
          totalExecutionTime := c1State.connectionStats.totalExecutionTime + 10
          averageExecutionTime :=
            ((c1State.connectionStats.totalExecutionTime + 10 : Int) : ℚ) /
              ((c1State.connectionStats.totalCommands + 1 : Int) : ℚ) } ∧
      getEntry "c1"
          (execute_command "c1" (.completed code stdoutRaw stderrRaw) 10 2000 c1State).2.sshConnections =
        some { c1Conn with commandCount := c1Conn.commandCount + 1, lastActivity := 2000 }) ∧
    (∀ outcome : ExecOutcome,
      outcome = .timedOut ∨ outcome = .streamError ∨ outcome = .dispatchError →
      (execute_command "c1" outcome 10 2000 c1State).2.connectionStats =
        { c1State.connectionStats with
          totalCommands := c1State.connectionStats.totalCommands + 1
          failedCommands := c1State.connectionStats.failedCommands + 1 } ∧
      (execute_command "c1" outcome 10 2000 c1State).2.sshConnections = c1State.sshConnections)) :=
  ⟨by decide, rfl, C3_command_statistics "c1" c1Conn 10 2000 c1State (by decide) rfl⟩

/-- Claim C5 counterexample: a successful file operation on the live
connection `c1` updates only the last-activity timestamp; the stored
connection's executed-command counter is unchanged — the claim that every
successful file-transfer operation updates the command counter is false of
the code. -/
theorem C5_counterexample_file_op_counter :
    (file_operation "c1" (some "upload ok") 10 9000 c1State).1 =
      FileOpResult.success "upload ok" ∧
    (getEntry "c1" (file_operation "c1" (some "upload ok") 10 9000 c1State).2.sshConnections).map
        Connection.commandCount = some c1Conn.commandCount ∧
    (getEntry "c1" (file_operation "c1" (some "upload ok") 10 9000 c1State).2.sshConnections).map
        Connection.lastActivity = some 9000 := by
  decide

/-- Claim C5 (amended): a command executed through `execute_command` updates
both the connection's command counter and its last-activity timestamp; a
successful file-transfer operation updates only the last-activity timestamp
(the counter is unchanged); an in-session command updates the connection's
command counter but not the connection's last-activity timestamp. -/
theorem C5_activity_updates (connectionId sessionId command : String)
    (conn : Connection) (session : Session) (code : Int)
    (stdoutRaw stderrRaw detail : String) (t : Int) (now : Nat) (st : ServerState)
    (hc : getEntry connectionId st.sshConnections = some conn)
    (hLive : conn.clientClosed = false)
    (hs : getEntry sessionId st.sshSessions = some session)
    (hActive : session.isActive = true)
    (hOwner : session.connectionId = connectionId) :
    getEntry connectionId
        (execute_command connectionId (.completed code stdoutRaw stderrRaw) t now st).2.sshConnections =
      some { conn with commandCount := conn.commandCount + 1, lastActivity := now } ∧
    getEntry connectionId
        (file_operation connectionId (some detail) t now st).2.sshConnections =
      some { conn with lastActivity := now } ∧
    getEntry connectionId
        (execute_in_session sessionId command (.completed code stdoutRaw stderrRaw) t now st).2.sshConnections =
      some { conn with commandCount := conn.commandCount + 1 } := by
  refine ⟨?_, ?_, ?_⟩
  · unfold execute_command
    rw [hc]
    simp [hLive, getEntry_setEntry_self]
  · unfold file_operation
    rw [hc]
    simp [hLive, getEntry_setEntry_self]
  · unfold execute_in_session
    rw [hs]
    simp [hActive, hOwner, hc, hLive, getEntry_setEntry_self]

/-- Witness for the amended C5 at the live connection `c1` and its session
`s1`. -/
theorem C5_activity_updates_witness :
    getEntry "c1" c1State.sshConnections = some c1Conn ∧
    c1Conn.clientClosed = false ∧
    getEntry "s1" c1State.sshSessions = some c1Session ∧
    c1Session.isActive = true ∧
    c1Session.connectionId = "c1" ∧
    (getEntry "c1"
        (execute_command "c1" (.completed 0 "out" "") 10 9000 c1State).2.sshConnections =
      some { c1Conn with commandCount := c1Conn.commandCount + 1, lastActivity := 9000 } ∧
    getEntry "c1"
        (file_operation "c1" (some "listing") 10 9000 c1State).2.sshConnections =
      some { c1Conn with lastActivity := 9000 } ∧
    getEntry "c1"
        (execute_in_session "s1" "ls" (.completed 0 "out" "") 10 9000 c1State).2.sshConnections =
      some { c1Conn with commandCount := c1Conn.commandCount + 1 }) :=
  ⟨by decide, rfl, by decide, rfl, rfl,
   C5_activity_updates "c1" "s1" "ls" c1Conn c1Session 0 "out" "" "listing" 10 9000 c1State
     (by decide) rfl (by decide) rfl rfl⟩

theorem setEntry_eq_append (k : String) (v : α) (l : List (String × α))
    (h : getEntry k l = none) : setEntry k v l = l ++ [(k, v)] := by
  induction l with
  | nil => simp [setEntry]
  | cons p rest ih =>
    obtain ⟨k0, v0⟩ := p
    by_cases hp : k0 = k
    · simp [getEntry, hp] at h
    · simp only [getEntry, hp, if_false] at h
      simp [setEntry, hp, ih h]

/-- Claim C6: a connect call whose supplied display name matches a live
connection's name fails before any transport handshake (nothing attempted,
state — registry and statistics — unchanged); and from a registry with
pairwise-distinct display names, a successful connect with a fresh name
preserves pairwise distinctness, so each name identifies exactly one entry. -/
theorem C6_name_uniqueness (st : ServerState) :
    (∀ (n host username newId : String) (port : Int) (outcome : HandshakeOutcome)
        (now : Nat) (keyValid : Bool),
      n ≠ "" →
      (st.sshConnections.any (fun p => p.2.name == n)) = true →
      connect_ssh host port username keyValid (some n) outcome newId now st =
        ({ newConnectionId := none, attemptedHandshake := false, clientEnded := false }, st)) ∧
    (∀ (host username newId : String) (port : Int) (connectionName : Option String)
        (now : Nat),
      st.sshConnections.Pairwise (fun a b => a.2.name ≠ b.2.name) →
      getEntry newId st.sshConnections = none →
      (∀ p ∈ st.sshConnections,
        p.2.name ≠ (freshConnection host port username connectionName newId now).name) →
      nameConflict connectionName st = false →
      (connect_ssh host port username true connectionName .ready newId now st).2.sshConnections.Pairwise
        (fun a b => a.2.name ≠ b.2.name) ∧
      getEntry newId
          (connect_ssh host port username true connectionName .ready newId now st).2.sshConnections =
        some (freshConnection host port username connectionName newId now)) := by
  constructor
  · intro n host username newId port outcome now keyValid hn hany
    have hconf : nameConflict (some n) st = true := by
      simp [nameConflict, hany, bne_iff_ne, hn]
    unfold connect_ssh
    simp [hconf]
  · intro host username newId port connectionName now hPW hFresh hNames hConf
    have hred : (connect_ssh host port username true connectionName .ready newId now st).2.sshConnections =
        setEntry newId (freshConnection host port username connectionName newId now)
          st.sshConnections := by
      unfold connect_ssh
      simp [hConf]
    constructor
    · rw [hred, setEntry_eq_append _ _ _ hFresh]
      refine List.pairwise_append.mpr ⟨hPW, by simp, ?_⟩
      intro a ha b hb
      simp only [List.mem_singleton] at hb
      subst hb
      exact hNames a ha
    · rw [hred]
      exact getEntry_setEntry_self _ _ _

/-- Witness for C6 at the concrete state `c1State`: a connect reusing the
live name `alpha` is rejected before the handshake, and a connect with the
fresh name `beta` succeeds keeping names pairwise distinct. -/
theorem C6_name_uniqueness_witness :
    ("alpha" ≠ "" ∧
     (c1State.sshConnections.any (fun p => p.2.name == "alpha")) = true ∧
     connect_ssh "h2" 2222 "u2" false (some "alpha") .ready "id9" 50 c1State =
       ({ newConnectionId := none, attemptedHandshake := false, clientEnded := false },
        c1State)) ∧
    (c1State.sshConnections.Pairwise (fun a b => a.2.name ≠ b.2.name) ∧
     getEntry "id2" c1State.sshConnections = none ∧
     (∀ p ∈ c1State.sshConnections,
       p.2.name ≠ (freshConnection "h3" 22 "u3" (some "beta") "id2" 60).name) ∧
     nameConflict (some "beta") c1State = false ∧
     ((connect_ssh "h3" 22 "u3" true (some "beta") .ready "id2" 60 c1State).2.sshConnections.Pairwise
        (fun a b => a.2.name ≠ b.2.name) ∧
      getEntry "id2"
          (connect_ssh "h3" 22 "u3" true (some "beta") .ready "id2" 60 c1State).2.sshConnections =
        some (freshConnection "h3" 22 "u3" (some "beta") "id2" 60))) :=
  ⟨⟨by decide, by decide,
    (C6_name_uniqueness c1State).1 "alpha" "h2" "u2" "id9" 2222 .ready 50 false
      (by decide) (by decide)⟩,
   by decide, by decide, by decide, by decide,
   (C6_name_uniqueness c1State).2 "h3" "u3" "id2" 22 (some "beta") 60
     (by decide) (by decide) (by decide) (by decide)⟩

/-- Claim C7: starting a session against a live connection initializes the
tracked directory to the supplied initial directory when its remote
verification succeeds (the `pwd` echo trims to it), to the connection's last
known directory when none is supplied, and — when verification of a supplied
initial directory fails — the session is still created with its tracked
directory silently degraded to the default `/root`; verification failure is
never fatal to session creation. -/
theorem C7_session_initial_directory (connectionId newSessionId : String)
    (conn : Connection) (sessionName : Option String) (now : Nat) (st : ServerState)
    (h : getEntry connectionId st.sshConnections = some conn)
    (hLive : conn.clientClosed = false)
    (hwd : conn.workingDirectory ≠ "") :
    (∀ T stdoutRaw, T ≠ "" → T ≠ "/root" → jsTrim stdoutRaw = T →
      getEntry newSessionId
          (interactive_ssh connectionId sessionName (some T) (some (0, stdoutRaw))
            newSessionId now st).2.sshSessions =
        some { id := newSessionId
               name := jsOrString sessionName ("session_" ++ newSessionId)
               connectionId := connectionId
               workingDirectory := T
               commandHistory := []
               startedAt := now
               lastActivity := now
               isActive := true }) ∧
    (∀ verifyOutcome : Option (Int × String),
      getEntry newSessionId
          (interactive_ssh connectionId sessionName none verifyOutcome
            newSessionId now st).2.sshSessions =
        some { id := newSessionId
               name := jsOrString sessionName ("session_" ++ newSessionId)
               connectionId := connectionId
               workingDirectory := conn.workingDirectory
               commandHistory := []
               startedAt := now
               lastActivity := now
               isActive := true }) ∧
    (∀ (T : String) (verifyOutcome : Option (Int × String)), T ≠ "" → T ≠ "/root" →
      (∀ stdoutRaw, verifyOutcome ≠ some (0, stdoutRaw)) →
      getEntry newSessionId
          (interactive_ssh connectionId sessionName (some T) verifyOutcome
            newSessionId now st).2.sshSessions =
        some { id := newSessionId
               name := jsOrString sessionName ("session_" ++ newSessionId)
               connectionId := connectionId
               workingDirectory := "/root"
               commandHistory := []
               startedAt := now
               lastActivity := now
               isActive := true }) := by
  refine ⟨?_, ?_, ?_⟩
  · intro T stdoutRaw hT1 hT2 hTrim
    unfold interactive_ssh
    rw [h]
    simp [hLive, hT1, hT2, hTrim, getEntry_setEntry_self]
  · intro verifyOutcome
    unfold interactive_ssh
    rw [h]
    simp [hLive, jsOrString, hwd, getEntry_setEntry_self]
  · intro T verifyOutcome hT1 hT2 hFail
    unfold interactive_ssh
    rw [h]
    cases verifyOutcome with
    | none => simp [hLive, hT1, hT2, getEntry_setEntry_self]
    | some p =>
        obtain ⟨code, stdoutRaw⟩ := p
        by_cases hcode : code = 0
        · subst hcode
          exact absurd rfl (hFail stdoutRaw)
        · simp [hLive, hT1, hT2, hcode, getEntry_setEntry_self]

/-- Witness for C7 at the live connection `c1`: a verified supplied
directory, an unsupplied directory, and a failed verification. -/
theorem C7_session_initial_directory_witness :
    getEntry "c1" c1State.sshConnections = some c1Conn ∧
    c1Conn.clientClosed = false ∧
    c1Conn.workingDirectory ≠ "" ∧
    ((∀ T stdoutRaw, T ≠ "" → T ≠ "/root" → jsTrim stdoutRaw = T →
      getEntry "s9"
          (interactive_ssh "c1" (some "term") (some T) (some (0, stdoutRaw))
            "s9" 4000 c1State).2.sshSessions =
        some { id := "s9", name := jsOrString (some "term") ("session_" ++ "s9")
               connectionId := "c1", workingDirectory := T, commandHistory := []
               startedAt := 4000, lastActivity := 4000, isActive := true }) ∧
    (∀ verifyOutcome : Option (Int × String),
      getEntry "s9"
          (interactive_ssh "c1" (some "term") none verifyOutcome
            "s9" 4000 c1State).2.sshSessions =
        some { id := "s9", name := jsOrString (some "term") ("session_" ++ "s9")
               connectionId := "c1", workingDirectory := c1Conn.workingDirectory
               commandHistory := [], startedAt := 4000, lastActivity := 4000
               isActive := true }) ∧
    (∀ (T : String) (verifyOutcome : Option (Int × String)), T ≠ "" → T ≠ "/root" →
      (∀ stdoutRaw, verifyOutcome ≠ some (0, stdoutRaw)) →
      getEntry "s9"
          (interactive_ssh "c1" (some "term") (some T) verifyOutcome
            "s9" 4000 c1State).2.sshSessions =
        some { id := "s9", name := jsOrString (some "term") ("session_" ++ "s9")
               connectionId := "c1", workingDirectory := "/root", commandHistory := []
               startedAt := 4000, lastActivity := 4000, isActive := true })) :=
  ⟨by decide, rfl, by decide,
   C7_session_initial_directory "c1" "s9" c1Conn (some "term") 4000 c1State
     (by decide) rfl (by decide)⟩

theorem execute_in_session_success_state (sessionId command : String)
    (session : Session) (conn : Connection) (code : Int)
    (stdoutRaw stderrRaw : String) (t : Int) (now : Nat) (st : ServerState)
    (hs : getEntry sessionId st.sshSessions = some session)
    (hActive : session.isActive = true)
    (hc : getEntry session.connectionId st.sshConnections = some conn)
    (hLive : conn.clientClosed = false) :
    (execute_in_session sessionId command (.completed code stdoutRaw stderrRaw) t now st).2 =
      { st with
        sshSessions :=
          setEntry sessionId
            { session with
              lastActivity := now
              commandHistory := session.commandHistory ++
                [{ command := jsTrim command
                   timestamp := now
                   exitCode := code
                   workingDirectory := session.workingDirectory }]
              workingDirectory :=
                applyDirectoryUpdate session.workingDirectory
                  (resolveSessionCommand session.workingDirectory command).2
                  code (jsTrim stdoutRaw) }
            st.sshSessions
        sshConnections :=
          setEntry session.connectionId
            { conn with commandCount := conn.commandCount + 1 }
            st.sshConnections
        connectionStats :=
          updateConnectionStats (.command_success t) st.connectionStats } := by
  unfold execute_in_session
  rw [hs]
  simp [hActive, hc, hLive]

/-- Claim C8: an in-session command that completes (the only path that can
mutate a session's tracked directory) leaves every other session's registry
entry unchanged and preserves the tracked working directory of every
connection; and a connection-level directory change leaves the session
registry entirely unchanged. -/
theorem C8_directory_isolation (st : ServerState) :
    (∀ (sessionId command : String) (session : Session) (conn : Connection)
        (code : Int) (stdoutRaw stderrRaw : String) (t : Int) (now : Nat)
        (otherId : String),
      getEntry sessionId st.sshSessions = some session →
      session.isActive = true →
      getEntry session.connectionId st.sshConnections = some conn →
      conn.clientClosed = false →
      otherId ≠ sessionId →
      getEntry otherId
          (execute_in_session sessionId command (.completed code stdoutRaw stderrRaw)
            t now st).2.sshSessions =
        getEntry otherId st.sshSessions ∧
      (∀ cid c, getEntry cid st.sshConnections = some c →
        ∃ c', getEntry cid
            (execute_in_session sessionId command (.completed code stdoutRaw stderrRaw)
              t now st).2.sshConnections = some c' ∧
          c'.workingDirectory = c.workingDirectory)) ∧
    (∀ (connectionId directory : String) (conn : Connection) (stdoutRaw : String)
        (t : Int) (now : Nat),
      getEntry connectionId st.sshConnections = some conn →
      conn.clientClosed = false →
      (change_directory connectionId directory (some (0, stdoutRaw, "")) t now st).2.sshSessions =
        st.sshSessions) := by
  constructor
  · intro sessionId command session conn code stdoutRaw stderrRaw t now otherId
      hs hActive hc hLive hne
    rw [execute_in_session_success_state sessionId command session conn code
      stdoutRaw stderrRaw t now st hs hActive hc hLive]
    constructor
    · exact getEntry_setEntry_ne sessionId otherId _ _ hne
    · intro cid c hcd
      by_cases hq : cid = session.connectionId
      · subst hq
        rw [hcd] at hc
        obtain rfl : c = conn := by injection hc
        exact ⟨{ c with commandCount := c.commandCount + 1 },
          getEntry_setEntry_self _ _ _, rfl⟩
      · exact ⟨c, by rw [getEntry_setEntry_ne _ _ _ _ hq]; exact hcd, rfl⟩
  · intro connectionId directory conn stdoutRaw t now hc hLive
    unfold change_directory
    rw [hc]
    simp [hLive]

/-- Witness for C8 at the concrete state `c1State`: running an in-session
command in `s1` and changing `c1`'s directory. -/
theorem C8_directory_isolation_witness :
    (getEntry "s1" c1State.sshSessions = some c1Session ∧
     c1Session.isActive = true ∧
     getEntry c1Session.connectionId c1State.sshConnections = some c1Conn ∧
     c1Conn.clientClosed = false ∧
     ("zz" : String) ≠ "s1" ∧
     (getEntry "zz"
          (execute_in_session "s1" "ls" (.completed 0 "out" "") 5 100 c1State).2.sshSessions =
        getEntry "zz" c1State.sshSessions ∧
      (∀ cid c, getEntry cid c1State.sshConnections = some c →
        ∃ c', getEntry cid
            (execute_in_session "s1" "ls" (.completed 0 "out" "") 5 100 c1State).2.sshConnections =
          some c' ∧ c'.workingDirectory = c.workingDirectory))) ∧
    (getEntry "c1" c1State.sshConnections = some c1Conn ∧
     c1Conn.clientClosed = false ∧
     (change_directory "c1" "/tmp" (some (0, "/tmp", "")) 5 100 c1State).2.sshSessions =
       c1State.sshSessions) :=
  ⟨⟨by decide, rfl, by decide, rfl, by decide,
    (C8_directory_isolation c1State).1 "s1" "ls" c1Session c1Conn 0 "out" "" 5 100 "zz"
      (by decide) rfl (by decide) rfl (by decide)⟩,
   ⟨by decide, rfl,
    (C8_directory_isolation c1State).2 "c1" "/tmp" c1Conn "/tmp" 5 100 (by decide) rfl⟩⟩

/-- Claim C4: the directory-context resolver — a trimmed command starting
with `cd ` has its target extracted and is rewritten to `cd T && pwd` for an
absolute or special (`-`, `~`) target and to `cd D/T && pwd` for a relative
one, marked directory-changing; any other command is rewritten to
`cd D && C` exactly when `D` is not the default `/root` and left unmodified
otherwise; after execution the tracked directory becomes the last line of
the trimmed output only when the mark is set, the exit status is zero and
that line is non-empty and absolute, and is left unchanged on a non-zero
exit status or non-absolute output; hence `cd /a` then relative `cd b`
yields `/a/b`, and `cd /a` then a failing `cd x` leaves `/a`. -/
theorem C4_directory_resolver :
    (∀ D C T, jsStartsWith (jsTrim C) "cd " = true →
      jsTrim (jsDrop (jsTrim C) 3) = T →
      (jsStartsWith T "/" = true ∨ T = "-" ∨ T = "~" →
        resolveSessionCommand D C = ("cd " ++ T ++ " && pwd", true)) ∧
      (jsStartsWith T "/" = false → T ≠ "-" → T ≠ "~" →
        resolveSessionCommand D C = ("cd " ++ D ++ "/" ++ T ++ " && pwd", true))) ∧
    (∀ D C, jsStartsWith (jsTrim C) "cd " = false →
      (D ≠ "/root" → resolveSessionCommand D C = ("cd " ++ D ++ " && " ++ C, false)) ∧
      (D = "/root" → resolveSessionCommand D C = (C, false))) ∧
    (∀ D out L, jsTrim ((jsSplitLines out).getLastD "") = L →
      (L ≠ "" → jsStartsWith L "/" = true → applyDirectoryUpdate D true 0 out = L) ∧
      (∀ code : Int, code ≠ 0 → applyDirectoryUpdate D true code out = D) ∧
      (jsStartsWith L "/" = false → applyDirectoryUpdate D true 0 out = D)) ∧
    ((getEntry "sD" demoState1.sshSessions).map Session.workingDirectory = some "/a" ∧
     (getEntry "sD" demoState2.sshSessions).map Session.workingDirectory = some "/a/b" ∧
     (getEntry "sD" demoStateFail.sshSessions).map Session.workingDirectory = some "/a") := by
  refine ⟨?_, ?_, ?_, by decide, by decide, by decide⟩
  · intro D C T h hT
    constructor
    · rintro (habs | rfl | rfl)
      · simp [resolveSessionCommand, h, hT, habs]
      · have e1 : jsStartsWith "-" "/" = false := by decide
        simp [resolveSessionCommand, h, hT, e1]
      · have e2 : jsStartsWith "~" "/" = false := by decide
        simp [resolveSessionCommand, h, hT, e2]
    · intro habs hne1 hne2
      simp [resolveSessionCommand, h, hT, habs, hne1, hne2]
  · intro D C h
    constructor
    · intro hD
      simp [resolveSessionCommand, h, hD]
    · rintro rfl
      simp [resolveSessionCommand, h]
  · intro D out L hL
    refine ⟨?_, ?_, ?_⟩
    · intro hne habs
      simp only [List.getLastD_eq_getLast?] at hL
      simp [applyDirectoryUpdate, hL, hne, habs]
    · intro code hcode
      simp [applyDirectoryUpdate, hcode]
    · intro habs
      simp only [List.getLastD_eq_getLast?] at hL
      simp [applyDirectoryUpdate, hL, habs]

/-- Witness for C4: an absolute target, a relative target from a non-default
directory, a confirmed directory update and a refused one. -/
theorem C4_directory_resolver_witness :
    (jsStartsWith (jsTrim "cd /tmp") "cd " = true ∧
     jsTrim (jsDrop (jsTrim "cd /tmp") 3) = "/tmp" ∧
     jsStartsWith "/tmp" "/" = true ∧
     resolveSessionCommand "/root" "cd /tmp" = ("cd " ++ "/tmp" ++ " && pwd", true)) ∧
    (jsStartsWith (jsTrim "ls -l") "cd " = false ∧
     ("/a" : String) ≠ "/root" ∧
     resolveSessionCommand "/a" "ls -l" = ("cd " ++ "/a" ++ " && " ++ "ls -l", false)) ∧
    (jsTrim ((jsSplitLines "/a/b").getLastD "") = "/a/b" ∧
     ("/a/b" : String) ≠ "" ∧
     jsStartsWith "/a/b" "/" = true ∧
     applyDirectoryUpdate "/a" true 0 "/a/b" = "/a/b") ∧
    (∀ code : Int, code ≠ 0 → applyDirectoryUpdate "/a" true code "" = "/a") :=
  ⟨⟨by decide, by decide, by decide,
    (C4_directory_resolver.1 "/root" "cd /tmp" "/tmp" (by decide) (by decide)).1
      (Or.inl (by decide))⟩,
   ⟨by decide, by decide,
    (C4_directory_resolver.2.1 "/a" "ls -l" (by decide)).1 (by decide)⟩,
   ⟨by decide, by decide, by decide,
    ((C4_directory_resolver.2.2.1 "/a" "/a/b" "/a/b" (by decide)).1 (by decide) (by decide))⟩,
   (C4_directory_resolver.2.2.1 "/a" "" "" (by decide)).2.1⟩
